import Mathlib

/-!
Verification of `helpers.py` from the superliga6-table-sim repository.

The Python module works with IEEE floats; we embed its arithmetic over the
exact reals `ℝ` (the standard idealization for float specifications), so
"sum to 1.0 within floating tolerance" becomes exact equality, and the
float special values `inf`/`nan` have no counterpart.  Python's `round`
(round-half-to-even) is embedded faithfully as `pyRound`.  Randomness
(`np.random.poisson`, `np.random.random`) is embedded by passing the drawn
values as explicit oracle arguments; `np.random.poisson` rejects a negative
rate with a `ValueError`, embedded as `Except.error`.
-/

noncomputable section

namespace Superliga

/-- Arithmetic mean of a list of reals, as `numpy.mean` / `pandas.mean`
compute it (sum divided by length; for the empty list real division by
zero yields the junk value 0 where numpy would give `nan`). -/
def listMean (xs : List ℝ) : ℝ := xs.sum / xs.length

/-- Python's built-in `round` on a real value: round half to even.
Away from exact halves it agrees with rounding to the nearest integer
(Mathlib's `round`, which rounds halves up). -/
def pyRound (x : ℝ) : ℤ :=
  if x - ⌊x⌋ = 1/2 then (if Even ⌊x⌋ then ⌊x⌋ else ⌊x⌋ + 1) else round x

/-- `TeamStanding` record from the spec's data model: one row of the
standings table (`M` matches, `Pts` points, `GD` goal difference,
`GF`/`GA` goals for/against, `D` draws). -/
structure TeamStats where
  M : ℝ
  Pts : ℝ
  GD : ℝ
  GF : ℝ
  GA : ℝ
  D : ℝ

/-- The per-team raw skill score computed in the loop of
`compute_auto_elo`: `alpha·ppg + beta·gd_pg + gamma·gf_pg`, with `m`
replaced by `1.0` when `m ≤ 0`. -/
def team_score (alpha beta gamma : ℝ) (d : TeamStats) : ℝ :=
  let m := if d.M ≤ 0 then 1 else d.M
  alpha * (d.Pts / m) + beta * (d.GD / m) + gamma * (d.GF / m)

/-- The dict `S` built by `compute_auto_elo`. -/
def auto_scores (td : List (String × TeamStats)) (alpha beta gamma : ℝ) :
    List (String × ℝ) :=
  td.map fun p => (p.1, team_score alpha beta gamma p.2)

/-- The array `arr = np.array(list(S.values()))` of `compute_auto_elo`. -/
def auto_arr (td : List (String × TeamStats)) (alpha beta gamma : ℝ) : List ℝ :=
  (auto_scores td alpha beta gamma).map (fun p => p.2)

/-- `mean_S = arr.mean()` of `compute_auto_elo`. -/
def auto_mean (td : List (String × TeamStats)) (alpha beta gamma : ℝ) : ℝ :=
  listMean (auto_arr td alpha beta gamma)

/-- `std_S = arr.std(ddof=0)` of `compute_auto_elo`, with the `if std_S == 0:
std_S = 1.0` guard (numpy's `std(ddof=0)` is the square root of the mean
squared deviation). -/
def auto_std (td : List (String × TeamStats)) (alpha beta gamma : ℝ) : ℝ :=
  let s := Real.sqrt (listMean ((auto_arr td alpha beta gamma).map
    (fun x => (x - auto_mean td alpha beta gamma) ^ 2)))
  if s = 0 then 1 else s

/-- `compute_auto_elo(teams_data, alpha, beta, gamma, sigma)` from
helpers.py: `1500 + sigma·(s − mean_S)/std_S` per team, rounded by
Python's `round`. -/
def compute_auto_elo (td : List (String × TeamStats))
    (alpha beta gamma sigma : ℝ) : List (String × ℤ) :=
  (auto_scores td alpha beta gamma).map fun p =>
    (p.1, pyRound (1500 + sigma *
      ((p.2 - auto_mean td alpha beta gamma) / auto_std td alpha beta gamma)))

/-- Skill score as the spec words it: `S = alpha·(Pts/M) + beta·(GD/M) +
gamma·(GF/M)` with `M` floored to 1 if `M ≤ 0`. -/
def spec_skill (alpha beta gamma : ℝ) (d : TeamStats) : ℝ :=
  let m := if d.M ≤ 0 then 1 else d.M
  alpha * (d.Pts / m) + beta * (d.GD / m) + gamma * (d.GF / m)

/-- Population standard deviation as the spec words it: divide by `N`,
not `N − 1`. -/
def popStd (xs : List ℝ) : ℝ :=
  Real.sqrt ((xs.map (fun x => (x - listMean xs) ^ 2)).sum / xs.length)

/-- `RatingInitializer` as the spec words it: standardize the skill scores
with population mean and population standard deviation (a zero standard
deviation treated as 1), map to `1500 + sigma·z`, and round to an
integer. -/
def compute_auto_elo_spec (td : List (String × TeamStats))
    (alpha beta gamma sigma : ℝ) : List (String × ℤ) :=
  td.map fun p =>
    (p.1, pyRound (1500 + sigma *
      ((spec_skill alpha beta gamma p.2 -
          listMean (td.map fun q => spec_skill alpha beta gamma q.2)) /
        (if popStd (td.map fun q => spec_skill alpha beta gamma q.2) = 0 then 1
         else popStd (td.map fun q => spec_skill alpha beta gamma q.2)))))

/-- `expected_score(elo_a, elo_b)` from helpers.py. -/
def expected_score (elo_a elo_b : ℝ) : ℝ :=
  1 / (1 + (10 : ℝ) ^ ((elo_b - elo_a) / 400))

/-- `match_probs(elo_a, elo_b, draw_prob)` from helpers.py: split the
non-draw mass by the Elo expected score, then renormalize by the total. -/
def match_probs (elo_a elo_b draw_prob : ℝ) : ℝ × ℝ × ℝ :=
  let E_a : ℝ := 1 / (1 + (10 : ℝ) ^ ((elo_b - elo_a) / 400))
  let p_draw := draw_prob
  let p_a := (1 - p_draw) * E_a
  let p_b := (1 - p_draw) * (1 - E_a)
  let tot := p_a + p_draw + p_b
  (p_a / tot, p_draw / tot, p_b / tot)

/-- `update_elo(elo_a, elo_b, S_a, S_b, K)` from helpers.py. -/
def update_elo (elo_a elo_b S_a S_b K : ℝ) : ℝ × ℝ :=
  let E_a := expected_score elo_a elo_b
  let E_b := 1 - E_a
  (elo_a + K * (S_a - E_a), elo_b + K * (S_b - E_b))

/-- `get_match_result(goals_a, goals_b)` from helpers.py. -/
def get_match_result (goals_a goals_b : ℕ) : ℝ × ℝ :=
  if goals_a > goals_b then (1, 0)
  else if goals_a = goals_b then (0.5, 0.5)
  else (0, 1)

/-- `calculate_base_goals(teams_data)` from helpers.py: total goals divided
by total matches (the table counts every game twice), halved to a per-team
per-match average. -/
def calculate_base_goals (td : List (String × TeamStats)) : ℝ :=
  let total_goals := (td.map fun p => p.2.GF).sum
  let total_matches := (td.map fun p => p.2.M).sum / 2
  let base_goals := total_goals / total_matches
  base_goals / 2

/-- The `df['GFpg']` column of `init_attack_defense`. -/
def init_gfpg (td : List (String × TeamStats)) : List (String × ℝ) :=
  td.map fun p => (p.1, p.2.GF / p.2.M)

/-- The `df['GApg']` column of `init_attack_defense`. -/
def init_gapg (td : List (String × TeamStats)) : List (String × ℝ) :=
  td.map fun p => (p.1, p.2.GA / p.2.M)

/-- `base_lambda = df['GFpg'].mean()` of `init_attack_defense`. -/
def init_base_lambda (td : List (String × TeamStats)) : ℝ :=
  listMean ((init_gfpg td).map fun p => p.2)

/-- The unnormalized `attack` dict of `init_attack_defense`. -/
def init_attack_raw (td : List (String × TeamStats)) : List (String × ℝ) :=
  (init_gfpg td).map fun p => (p.1, p.2 / init_base_lambda td)

/-- The unnormalized `defense` dict of `init_attack_defense`. -/
def init_defense_raw (td : List (String × TeamStats)) : List (String × ℝ) :=
  (init_gapg td).map fun p => (p.1, p.2 / init_base_lambda td)

/-- `init_attack_defense(teams_data)` from helpers.py: per-game rates over
`base_lambda`, then each dict rescaled by its own cross-team mean. -/
def init_attack_defense (td : List (String × TeamStats)) :
    ℝ × List (String × ℝ) × List (String × ℝ) :=
  let a_mean := listMean ((init_attack_raw td).map fun p => p.2)
  let d_mean := listMean ((init_defense_raw td).map fun p => p.2)
  (init_base_lambda td,
   (init_attack_raw td).map fun p => (p.1, p.2 / a_mean),
   (init_defense_raw td).map fun p => (p.1, p.2 / d_mean))

/-- One per-game rate of `recompute_attack_defense`: `x / m` after
`m.replace(0, np.nan)`, with `none` standing for pandas' `NaN`. -/
def rate_opt (x m : ℝ) : Option ℝ :=
  if m = 0 then none else some (x / m)

/-- The defined (non-`NaN`) per-game rates of a column of
`recompute_attack_defense`; their mean is what
`df.fillna(df.mean(numeric_only=True))` fills the column's `NaN`s with
(pandas' column mean skips `NaN`s). -/
def defined_rates (keys : List String) (x games : String → ℝ) : List ℝ :=
  (keys.map fun t => rate_opt (x t) (games t)).reduceOption

/-- A per-game-rate column of `recompute_attack_defense` after the
`fillna` imputation.  (With no defined rate at all the fill value is the
junk mean 0 where pandas would leave `NaN`.) -/
def filled_col (keys : List String) (x games : String → ℝ) :
    List (String × ℝ) :=
  (keys.map fun t => (t, rate_opt (x t) (games t))).map
    fun p => (p.1, p.2.getD (listMean (defined_rates keys x games)))

/-- `base_lambda = df['GFpg'].mean()` of `recompute_attack_defense`,
taken over the imputed column. -/
def rec_base (keys : List String) (gf games : String → ℝ) : ℝ :=
  listMean ((filled_col keys gf games).map fun p => p.2)

/-- The unnormalized `attack` dict of `recompute_attack_defense`. -/
def rec_attack_raw (keys : List String) (gf games : String → ℝ) :
    List (String × ℝ) :=
  (filled_col keys gf games).map fun p => (p.1, p.2 / rec_base keys gf games)

/-- The unnormalized `defense` dict of `recompute_attack_defense` (divided
by the same `base_lambda` built from the GF column). -/
def rec_defense_raw (keys : List String) (gf ga games : String → ℝ) :
    List (String × ℝ) :=
  (filled_col keys ga games).map fun p => (p.1, p.2 / rec_base keys gf games)

/-- `recompute_attack_defense(gf, ga, games, normalize)` from helpers.py;
`keys` is the shared index of the three input dicts. -/
def recompute_attack_defense (keys : List String) (gf ga games : String → ℝ)
    (normalize : Bool) : ℝ × List (String × ℝ) × List (String × ℝ) :=
  if normalize then
    let a_mean := listMean ((rec_attack_raw keys gf games).map fun p => p.2)
    let d_mean := listMean ((rec_defense_raw keys gf ga games).map fun p => p.2)
    (rec_base keys gf games,
     (rec_attack_raw keys gf games).map fun p => (p.1, p.2 / a_mean),
     (rec_defense_raw keys gf ga games).map fun p => (p.1, p.2 / d_mean))
  else
    (rec_base keys gf games, rec_attack_raw keys gf games,
     rec_defense_raw keys gf ga games)

/-- The `gfpg` dict of `fast_recompute_attack_defense`: guarded division,
0 when no games played. -/
def fast_gfpg (keys : List String) (gf games : String → ℝ) :
    List (String × ℝ) :=
  keys.map fun t => (t, if games t > 0 then gf t / games t else 0)

/-- The `gapg` dict of `fast_recompute_attack_defense`. -/
def fast_gapg (keys : List String) (ga games : String → ℝ) :
    List (String × ℝ) :=
  keys.map fun t => (t, if games t > 0 then ga t / games t else 0)

/-- `base = np.mean(list(gfpg.values()))` of
`fast_recompute_attack_defense`. -/
def fast_base (keys : List String) (gf games : String → ℝ) : ℝ :=
  listMean ((fast_gfpg keys gf games).map fun p => p.2)

/-- The unnormalized `attack` dict of `fast_recompute_attack_defense`. -/
def fast_attack_raw (keys : List String) (gf games : String → ℝ) :
    List (String × ℝ) :=
  (fast_gfpg keys gf games).map fun p => (p.1, p.2 / fast_base keys gf games)

/-- The unnormalized `defense` dict of `fast_recompute_attack_defense`
(divided by the `base` built from `gfpg`). -/
def fast_defense_raw (keys : List String) (gf ga games : String → ℝ) :
    List (String × ℝ) :=
  (fast_gapg keys ga games).map fun p => (p.1, p.2 / fast_base keys gf games)

/-- `fast_recompute_attack_defense(gf, ga, games)` from helpers.py;
`keys` is the shared key set of the input dicts. -/
def fast_recompute_attack_defense (keys : List String)
    (gf ga games : String → ℝ) : ℝ × List (String × ℝ) × List (String × ℝ) :=
  let mean_a := listMean ((fast_attack_raw keys gf games).map fun p => p.2)
  let mean_d := listMean ((fast_defense_raw keys gf ga games).map fun p => p.2)
  (fast_base keys gf games,
   (fast_attack_raw keys gf games).map fun p => (p.1, p.2 / mean_a),
   (fast_defense_raw keys gf ga games).map fun p => (p.1, p.2 / mean_d))

/-- `np.random.poisson(lam)` as `simulate_goals` calls it: numpy raises a
`ValueError` for a negative rate (and for a rate beyond its finite bound,
which has no counterpart over the exact reals); otherwise the drawn count
is the oracle argument `sample`. -/
def np_poisson (lam : ℝ) (sample : ℕ) : Except String ℕ :=
  if lam < 0 then .error "lam < 0" else .ok sample

/-- `exp_a` of `simulate_goals`, after the optional Elo adjustment. -/
def sim_exp_a (team_a team_b : String) (base_lambda : ℝ)
    (attack defense : String → ℝ) (elo_a elo_b elo_factor : Option ℝ) : ℝ :=
  let e := base_lambda * attack team_a * defense team_b
  match elo_a, elo_b, elo_factor with
  | some ea, some eb, some f => e * (10 : ℝ) ^ ((ea - eb) / f)
  | _, _, _ => e

/-- `exp_b` of `simulate_goals`, after the optional Elo adjustment. -/
def sim_exp_b (team_a team_b : String) (base_lambda : ℝ)
    (attack defense : String → ℝ) (elo_a elo_b elo_factor : Option ℝ) : ℝ :=
  let e := base_lambda * attack team_b * defense team_a
  match elo_a, elo_b, elo_factor with
  | some ea, some eb, some f => e / (10 : ℝ) ^ ((ea - eb) / f)
  | _, _, _ => e

/-- `simulate_goals(...)` from helpers.py.  The two Poisson draws and the
uniform draw `np.random.random()` are passed as oracle arguments
`sample_a`, `sample_b`, `u`; a raised `ValueError` is `Except.error`. -/
def simulate_goals (team_a team_b : String) (base_lambda : ℝ)
    (attack defense : String → ℝ) (elo_a elo_b elo_factor : Option ℝ)
    (draw_bias : ℝ) (sample_a sample_b : ℕ) (u : ℝ) :
    Except String (ℕ × ℕ) :=
  match np_poisson (sim_exp_a team_a team_b base_lambda attack defense
      elo_a elo_b elo_factor) sample_a with
  | .error e => .error e
  | .ok goals_a =>
    match np_poisson (sim_exp_b team_a team_b base_lambda attack defense
        elo_a elo_b elo_factor) sample_b with
    | .error e => .error e
    | .ok goals_b =>
      if goals_a ≠ goals_b ∧ u < draw_bias then
        let avg_goals := pyRound (((goals_a : ℝ) + (goals_b : ℝ)) / 2)
        .ok ((max 0 avg_goals).toNat, (max 0 avg_goals).toNat)
      else
        .ok (goals_a, goals_b)

-- The Elo expected score is strictly between 0 and 1.
lemma expected_score_pos (a b : ℝ) : 0 < expected_score a b := by
  have hp : (0 : ℝ) < (10 : ℝ) ^ ((b - a) / 400) :=
    Real.rpow_pos_of_pos (by norm_num) _
  have h1 : (0 : ℝ) < 1 + (10 : ℝ) ^ ((b - a) / 400) := by linarith
  exact div_pos one_pos h1

lemma expected_score_le_one (a b : ℝ) : expected_score a b ≤ 1 := by
  have hp : (0 : ℝ) < (10 : ℝ) ^ ((b - a) / 400) :=
    Real.rpow_pos_of_pos (by norm_num) _
  have h1 : (0 : ℝ) < 1 + (10 : ℝ) ^ ((b - a) / 400) := by linarith
  rw [expected_score, div_le_one h1]
  linarith

lemma expected_score_self (a : ℝ) : expected_score a a = 1/2 := by
  have : (a - a) / 400 = (0 : ℝ) := by ring
  rw [expected_score, this, Real.rpow_zero]
  norm_num

/-- C1 -- For all `elo_a`, `elo_b` and `draw_prob ∈ [0,1]`, the three
components returned by `match_probs` each lie in `[0,1]` and sum to
exactly 1 after the renormalization by their total; and for equal
ratings `match_probs x x d` yields `p_a = p_b`. -/
theorem match_probs_valid (elo_a elo_b d : ℝ) (h0 : 0 ≤ d) (h1 : d ≤ 1) :
    (0 ≤ (match_probs elo_a elo_b d).1 ∧ (match_probs elo_a elo_b d).1 ≤ 1) ∧
    (0 ≤ (match_probs elo_a elo_b d).2.1 ∧ (match_probs elo_a elo_b d).2.1 ≤ 1) ∧
    (0 ≤ (match_probs elo_a elo_b d).2.2 ∧ (match_probs elo_a elo_b d).2.2 ≤ 1) ∧
    (match_probs elo_a elo_b d).1 + (match_probs elo_a elo_b d).2.1 +
      (match_probs elo_a elo_b d).2.2 = 1 ∧
    ∀ x : ℝ, (match_probs x x d).1 = (match_probs x x d).2.2 := by
  have hE0 : 0 < expected_score elo_a elo_b := expected_score_pos _ _
  have hE1 : expected_score elo_a elo_b ≤ 1 := expected_score_le_one _ _
  have htot : (1 - d) * expected_score elo_a elo_b + d +
      (1 - d) * (1 - expected_score elo_a elo_b) = 1 := by ring
  have hmp : match_probs elo_a elo_b d =
      ((1 - d) * expected_score elo_a elo_b, d,
        (1 - d) * (1 - expected_score elo_a elo_b)) := by
    simp only [match_probs, expected_score] at *
    rw [htot]
    simp
  refine ⟨?_, ?_, ?_, ?_, ?_⟩
  · rw [hmp]
    dsimp only
    constructor
    · exact mul_nonneg (by linarith) (le_of_lt hE0)
    · nlinarith [mul_nonneg h0 (le_of_lt hE0)]
  · rw [hmp]
    exact ⟨h0, h1⟩
  · rw [hmp]
    dsimp only
    constructor
    · exact mul_nonneg (by linarith) (by linarith)
    · nlinarith [mul_nonneg h0 (by linarith : (0:ℝ) ≤ 1 - expected_score elo_a elo_b)]
  · rw [hmp]
    dsimp only
    linarith [htot]
  · intro x
    have hxE : expected_score x x = 1/2 := expected_score_self x
    have htx : (1 - d) * expected_score x x + d +
        (1 - d) * (1 - expected_score x x) = 1 := by ring
    simp only [match_probs, expected_score] at *
    rw [htx]
    rw [hxE]
    ring_nf

/-- Witness for C1 at `elo_a = elo_b = 1500`, `draw_prob = 1/2`. -/
theorem match_probs_valid_witness :
    (0 : ℝ) ≤ 1/2 ∧ (1/2 : ℝ) ≤ 1 ∧
    ((0 ≤ (match_probs 1500 1500 (1/2)).1 ∧ (match_probs 1500 1500 (1/2)).1 ≤ 1) ∧
     (0 ≤ (match_probs 1500 1500 (1/2)).2.1 ∧ (match_probs 1500 1500 (1/2)).2.1 ≤ 1) ∧
     (0 ≤ (match_probs 1500 1500 (1/2)).2.2 ∧ (match_probs 1500 1500 (1/2)).2.2 ≤ 1) ∧
     (match_probs 1500 1500 (1/2)).1 + (match_probs 1500 1500 (1/2)).2.1 +
       (match_probs 1500 1500 (1/2)).2.2 = 1 ∧
     ∀ x : ℝ, (match_probs x x (1/2)).1 = (match_probs x x (1/2)).2.2) :=
  ⟨by norm_num, by norm_num,
   match_probs_valid 1500 1500 (1/2) (by norm_num) (by norm_num)⟩

/-- C10 -- `update_elo` conserves the total rating exactly whenever
`S_a + S_b = 1`, at every pair of ratings and every `K`. -/
theorem update_elo_conserves_sum (elo_a elo_b S_a S_b K : ℝ)
    (h : S_a + S_b = 1) :
    (update_elo elo_a elo_b S_a S_b K).1 + (update_elo elo_a elo_b S_a S_b K).2 =
      elo_a + elo_b := by
  simp only [update_elo]
  linear_combination K * h

/-- Witness for C10 at `update_elo 1600 1400 1 0 20`. -/
theorem update_elo_conserves_sum_witness :
    (1 : ℝ) + 0 = 1 ∧
    (update_elo 1600 1400 1 0 20).1 + (update_elo 1600 1400 1 0 20).2 =
      1600 + 1400 :=
  ⟨by norm_num, update_elo_conserves_sum 1600 1400 1 0 20 (by norm_num)⟩

/-- Counterexample to C4's "specific to equal starting ratings": at the
unequal pair `(1600, 1400)` the two rating changes of
`update_elo 1600 1400 1 0 20` are still exactly equal and opposite. -/
theorem update_elo_zero_sum_at_unequal_ratings :
    (1600 : ℝ) ≠ 1400 ∧
    (update_elo 1600 1400 1 0 20).1 - 1600 =
      -((update_elo 1600 1400 1 0 20).2 - 1400) := by
  constructor
  · norm_num
  · simp only [update_elo]
    ring

/-- C4 (amended) -- at equal ratings `update_elo x x 1 0 K` yields
equal-and-opposite changes, but this zero-sum behaviour is not specific to
equal starting ratings: for every rating pair, `update_elo a b 1 0 K`
produces equal-and-opposite changes. -/
theorem update_elo_zero_sum (K : ℝ) :
    (∀ x : ℝ, (update_elo x x 1 0 K).1 - x = x - (update_elo x x 1 0 K).2) ∧
    (∀ a b : ℝ, (update_elo a b 1 0 K).1 - a = -((update_elo a b 1 0 K).2 - b)) := by
  constructor
  · intro x
    simp only [update_elo]
    ring
  · intro a b
    simp only [update_elo]
    ring

lemma listSum_affine (a b : ℝ) (xs : List ℝ) :
    (xs.map (fun s => a + b * s)).sum = a * xs.length + b * xs.sum := by
  induction xs with
  | nil => simp
  | cons x t ih =>
    simp only [List.map_cons, List.sum_cons, List.length_cons, ih]
    push_cast
    ring

lemma listSum_sub (F G : ℝ → ℝ) (xs : List ℝ) :
    (xs.map (fun s => F s - G s)).sum = (xs.map F).sum - (xs.map G).sum := by
  induction xs with
  | nil => simp
  | cons x t ih =>
    simp only [List.map_cons, List.sum_cons, ih]
    ring

lemma abs_listSum_le (c : ℝ) (xs : List ℝ) (h : ∀ x ∈ xs, |x| ≤ c) :
    |xs.sum| ≤ c * xs.length := by
  induction xs with
  | nil => simp
  | cons x t ih =>
    simp only [List.sum_cons, List.length_cons]
    have h1 : |x| ≤ c := h x (by simp)
    have h2 : |t.sum| ≤ c * t.length := ih (fun y hy => h y (by simp [hy]))
    calc |x + t.sum| ≤ |x| + |t.sum| := abs_add _ _
      _ ≤ c + c * t.length := by linarith
      _ = c * ↑(t.length + 1) := by push_cast; ring

lemma pyRound_abs_sub (x : ℝ) : |(pyRound x : ℝ) - x| ≤ 1/2 := by
  unfold pyRound
  split_ifs with h he
  · have hx : (⌊x⌋ : ℝ) - x = -(1/2) := by linarith
    rw [show ((⌊x⌋ : ℤ) : ℝ) - x = -(1/2) from hx, abs_neg,
      abs_of_nonneg (by norm_num : (0:ℝ) ≤ 1/2)]
  · have hx : ((⌊x⌋ + 1 : ℤ) : ℝ) - x = 1/2 := by push_cast; linarith
    rw [hx, abs_of_nonneg (by norm_num : (0:ℝ) ≤ 1/2)]
  · rw [abs_sub_comm]
    exact abs_sub_round x

lemma listMean_pyRound_scaled (sigma sd : ℝ) (xs : List ℝ) (hxs : xs ≠ []) :
    |listMean (xs.map fun s =>
        ((pyRound (1500 + sigma * ((s - listMean xs) / sd)) : ℤ) : ℝ)) - 1500|
      ≤ 1/2 := by
  set μ := listMean xs with hμ
  set F : ℝ → ℝ := fun s => 1500 + sigma * ((s - μ) / sd) with hF
  set G : ℝ → ℝ := fun s => ((pyRound (F s) : ℤ) : ℝ) with hG
  have hN : (0 : ℝ) < xs.length := by
    have := List.length_pos.mpr hxs
    exact_mod_cast this
  have hFsum : (xs.map F).sum = 1500 * xs.length := by
    have h1 : F = fun s => (1500 - (sigma / sd) * μ) + (sigma / sd) * s := by
      funext s
      rw [hF]
      ring
    rw [h1, listSum_affine]
    have hsum : xs.sum = μ * xs.length := by
      rw [hμ, listMean]
      field_simp
    rw [hsum]
    ring
  have hsub : (xs.map (fun s => G s - F s)).sum = (xs.map G).sum - (xs.map F).sum :=
    listSum_sub G F xs
  have habs : |(xs.map (fun s => G s - F s)).sum| ≤ (1/2) * xs.length := by
    have := abs_listSum_le (1/2) (xs.map (fun s => G s - F s)) ?_
    · simpa [List.length_map] using this
    · intro y hy
      obtain ⟨s, hs, rfl⟩ := List.mem_map.mp hy
      exact pyRound_abs_sub (F s)
  have hmean : listMean (xs.map G) - 1500 =
      (xs.map (fun s => G s - F s)).sum / xs.length := by
    have hGs : (xs.map G).sum =
        1500 * xs.length + (xs.map (fun s => G s - F s)).sum := by
      rw [hsub, hFsum]
      ring
    rw [listMean, List.length_map, hGs]
    field_simp
    ring
  rw [hmean, abs_div, abs_of_pos hN, div_le_iff₀ hN]
  exact habs

/-- C2 -- For every standings table with at least two teams with differing
stats, the cross-team mean of the ratings returned by `compute_auto_elo`
is within rounding tolerance (1/2) of 1500, for every choice of `alpha`,
`beta`, `gamma` and `sigma`. -/
theorem compute_auto_elo_mean_1500 (td : List (String × TeamStats))
    (alpha beta gamma sigma : ℝ) (h2 : 2 ≤ td.length)
    (hdiff : ∃ p ∈ td, ∃ q ∈ td, p.2 ≠ q.2) :
    |listMean ((compute_auto_elo td alpha beta gamma sigma).map
        (fun p => ((p.2 : ℤ) : ℝ))) - 1500| ≤ 1/2 := by
  have hxs : auto_arr td alpha beta gamma ≠ [] := by
    have : (auto_arr td alpha beta gamma).length = td.length := by
      simp [auto_arr, auto_scores]
    intro hnil
    rw [hnil] at this
    simp at this
    omega
  have hrw : (compute_auto_elo td alpha beta gamma sigma).map
      (fun p => ((p.2 : ℤ) : ℝ)) =
      (auto_arr td alpha beta gamma).map (fun s =>
        ((pyRound (1500 + sigma *
          ((s - listMean (auto_arr td alpha beta gamma)) /
            auto_std td alpha beta gamma)) : ℤ) : ℝ)) := by
    simp only [compute_auto_elo, auto_arr, auto_mean, List.map_map]
    rfl
  rw [hrw]
  exact listMean_pyRound_scaled sigma (auto_std td alpha beta gamma) _ hxs

/-- Witness for C2 on the spec's two-team scenario standings. -/
theorem compute_auto_elo_mean_1500_witness :
    2 ≤ ([("A", (⟨10, 25, 15, 25, 10, 2⟩ : TeamStats)),
          ("B", (⟨10, 10, -15, 10, 25, 2⟩ : TeamStats))]).length ∧
    (∃ p ∈ [("A", (⟨10, 25, 15, 25, 10, 2⟩ : TeamStats)),
            ("B", (⟨10, 10, -15, 10, 25, 2⟩ : TeamStats))],
     ∃ q ∈ [("A", (⟨10, 25, 15, 25, 10, 2⟩ : TeamStats)),
            ("B", (⟨10, 10, -15, 10, 25, 2⟩ : TeamStats))], p.2 ≠ q.2) ∧
    |listMean ((compute_auto_elo
        [("A", (⟨10, 25, 15, 25, 10, 2⟩ : TeamStats)),
         ("B", (⟨10, 10, -15, 10, 25, 2⟩ : TeamStats))] 1 (8/10) (2/10) 100).map
        (fun p => ((p.2 : ℤ) : ℝ))) - 1500| ≤ 1/2 := by
  refine ⟨by simp, ?_, ?_⟩
  · refine ⟨("A", ⟨10, 25, 15, 25, 10, 2⟩), by simp,
      ("B", ⟨10, 10, -15, 10, 25, 2⟩), by simp, ?_⟩
    intro h
    have := congrArg TeamStats.Pts h
    norm_num at this
  · apply compute_auto_elo_mean_1500
    · simp
    · refine ⟨("A", ⟨10, 25, 15, 25, 10, 2⟩), by simp,
        ("B", ⟨10, 10, -15, 10, 25, 2⟩), by simp, ?_⟩
      intro h
      have := congrArg TeamStats.Pts h
      norm_num at this

lemma team_score_eq_spec_skill (alpha beta gamma : ℝ) (d : TeamStats) :
    team_score alpha beta gamma d = spec_skill alpha beta gamma d := rfl

lemma auto_arr_eq (td : List (String × TeamStats)) (alpha beta gamma : ℝ) :
    auto_arr td alpha beta gamma =
      td.map fun q => spec_skill alpha beta gamma q.2 := by
  simp only [auto_arr, auto_scores, List.map_map]
  rfl

lemma auto_std_eq_popStd (td : List (String × TeamStats)) (alpha beta gamma : ℝ) :
    auto_std td alpha beta gamma =
      (if popStd (auto_arr td alpha beta gamma) = 0 then 1
       else popStd (auto_arr td alpha beta gamma)) := by
  have h : Real.sqrt (listMean ((auto_arr td alpha beta gamma).map
      (fun x => (x - auto_mean td alpha beta gamma) ^ 2))) =
      popStd (auto_arr td alpha beta gamma) := by
    simp [popStd, listMean, auto_mean, List.length_map]
  rw [auto_std, h]

/-- C6 -- `compute_auto_elo` returns, for each team,
`round(1500 + sigma·(S − mean S)/std S)` with `S` the spec's weighted
per-game score (`M` replaced by 1 when `M ≤ 0`), the population standard
deviation (dividing by `N`), and a zero standard deviation replaced by 1. -/
theorem compute_auto_elo_refines_spec (td : List (String × TeamStats))
    (alpha beta gamma sigma : ℝ) :
    compute_auto_elo td alpha beta gamma sigma =
      compute_auto_elo_spec td alpha beta gamma sigma := by
  simp only [compute_auto_elo, compute_auto_elo_spec, auto_scores, List.map_map]
  apply List.map_congr_left
  intro p hp
  simp only [Function.comp]
  rw [auto_std_eq_popStd, auto_mean, auto_arr_eq, team_score_eq_spec_skill]

lemma listSum_div (xs : List ℝ) (c : ℝ) :
    (xs.map fun v => v / c).sum = xs.sum / c := by
  induction xs with
  | nil => simp
  | cons x t ih =>
    simp only [List.map_cons, List.sum_cons, ih]
    ring

lemma listSum_const {α : Type} (xs : List α) (c : ℝ) :
    (xs.map fun _ => c).sum = c * xs.length := by
  induction xs with
  | nil => simp
  | cons x t ih =>
    simp only [List.map_cons, List.sum_cons, List.length_cons, ih]
    push_cast
    ring

lemma listMean_div_mean (xs : List ℝ) (hxs : xs ≠ [])
    (hm : listMean xs ≠ 0) :
    listMean (xs.map fun v => v / listMean xs) = 1 := by
  have hN : (0 : ℝ) < xs.length := by
    exact_mod_cast List.length_pos.mpr hxs
  have hS : xs.sum ≠ 0 := by
    intro h
    exact hm (by rw [listMean, h, zero_div])
  rw [listMean, List.length_map, listSum_div, listMean]
  field_simp

lemma listMean_normalize_pairs (l : List (String × ℝ)) (hl : l ≠ [])
    (hm : listMean (l.map fun p => p.2) ≠ 0) :
    listMean ((l.map fun p =>
        (p.1, p.2 / listMean (l.map fun q => q.2))).map fun p => p.2) = 1 := by
  have hrw : (l.map fun p =>
      ((p.1, p.2 / listMean (l.map fun q => q.2)) : String × ℝ)).map
        (fun p => p.2) =
      (l.map fun p => p.2).map
        (fun v => v / listMean (l.map fun q => q.2)) := by
    simp only [List.map_map]
    rfl
  rw [hrw]
  exact listMean_div_mean _ (by simpa using hl) hm

/-- Counterexample to C3's "for every input with at least one team": for
the one-team league with no goals, `init_attack_defense` produces an
attack mapping whose cross-team mean is not 1 (the normalization divides
by a zero mean; the Python code produces `NaN`s there, the real-valued
embedding the junk value 0 — in neither case is the mean 1). -/
theorem init_attack_defense_degenerate_mean_ne_one :
    listMean (((init_attack_defense
        [("A", (⟨1, 0, 0, 0, 0, 0⟩ : TeamStats))]).2.1).map fun p => p.2) ≠ 1 := by
  simp [init_attack_defense, init_attack_raw, init_defense_raw, init_gfpg,
    init_gapg, init_base_lambda, listMean]

/-- C3 (amended) -- Whenever normalization is applied (always in
`init_attack_defense` and `fast_recompute_attack_defense`, and in
`recompute_attack_defense` with `normalize = true`), the returned attack
and defense mappings each have cross-team mean exactly 1, for every
nonempty input whose pre-normalization attack and defense means are
nonzero. -/
theorem normalization_means_one (td : List (String × TeamStats))
    (keys : List String) (gf ga games : String → ℝ)
    (h_td : td ≠ [])
    (h_ia : listMean ((init_attack_raw td).map fun p => p.2) ≠ 0)
    (h_id : listMean ((init_defense_raw td).map fun p => p.2) ≠ 0)
    (h_keys : keys ≠ [])
    (h_fa : listMean ((fast_attack_raw keys gf games).map fun p => p.2) ≠ 0)
    (h_fd : listMean ((fast_defense_raw keys gf ga games).map fun p => p.2) ≠ 0)
    (h_ra : listMean ((rec_attack_raw keys gf games).map fun p => p.2) ≠ 0)
    (h_rd : listMean ((rec_defense_raw keys gf ga games).map fun p => p.2) ≠ 0) :
    listMean (((init_attack_defense td).2.1).map fun p => p.2) = 1 ∧
    listMean (((init_attack_defense td).2.2).map fun p => p.2) = 1 ∧
    listMean (((fast_recompute_attack_defense keys gf ga games).2.1).map
      fun p => p.2) = 1 ∧
    listMean (((fast_recompute_attack_defense keys gf ga games).2.2).map
      fun p => p.2) = 1 ∧
    listMean (((recompute_attack_defense keys gf ga games true).2.1).map
      fun p => p.2) = 1 ∧
    listMean (((recompute_attack_defense keys gf ga games true).2.2).map
      fun p => p.2) = 1 := by
  have hia_ne : init_attack_raw td ≠ [] := by
    simpa [init_attack_raw, init_gfpg] using h_td
  have hid_ne : init_defense_raw td ≠ [] := by
    simpa [init_defense_raw, init_gapg] using h_td
  have hfa_ne : fast_attack_raw keys gf games ≠ [] := by
    simpa [fast_attack_raw, fast_gfpg] using h_keys
  have hfd_ne : fast_defense_raw keys gf ga games ≠ [] := by
    simpa [fast_defense_raw, fast_gapg] using h_keys
  have hra_ne : rec_attack_raw keys gf games ≠ [] := by
    simpa [rec_attack_raw, filled_col] using h_keys
  have hrd_ne : rec_defense_raw keys gf ga games ≠ [] := by
    simpa [rec_defense_raw, filled_col] using h_keys
  refine ⟨?_, ?_, ?_, ?_, ?_, ?_⟩
  · exact listMean_normalize_pairs _ hia_ne h_ia
  · exact listMean_normalize_pairs _ hid_ne h_id
  · exact listMean_normalize_pairs _ hfa_ne h_fa
  · exact listMean_normalize_pairs _ hfd_ne h_fd
  · simp only [recompute_attack_defense, if_true]
    exact listMean_normalize_pairs _ hra_ne h_ra
  · simp only [recompute_attack_defense, if_true]
    exact listMean_normalize_pairs _ hrd_ne h_rd

/-- Witness for C3 (amended) on a one-team league with nonzero goal
counts. -/
theorem normalization_means_one_witness :
    ([("A", (⟨1, 0, 0, 2, 1, 0⟩ : TeamStats))] ≠
      ([] : List (String × TeamStats))) ∧
    listMean ((init_attack_raw [("A", ⟨1, 0, 0, 2, 1, 0⟩)]).map
      fun p => p.2) ≠ 0 ∧
    listMean ((init_defense_raw [("A", ⟨1, 0, 0, 2, 1, 0⟩)]).map
      fun p => p.2) ≠ 0 ∧
    (["A"] ≠ ([] : List String)) ∧
    listMean ((fast_attack_raw ["A"] (fun _ => 2) (fun _ => 1)).map
      fun p => p.2) ≠ 0 ∧
    listMean ((fast_defense_raw ["A"] (fun _ => 2) (fun _ => 1)
      (fun _ => 1)).map fun p => p.2) ≠ 0 ∧
    listMean ((rec_attack_raw ["A"] (fun _ => 2) (fun _ => 1)).map
      fun p => p.2) ≠ 0 ∧
    listMean ((rec_defense_raw ["A"] (fun _ => 2) (fun _ => 1)
      (fun _ => 1)).map fun p => p.2) ≠ 0 ∧
    (listMean (((init_attack_defense [("A", ⟨1, 0, 0, 2, 1, 0⟩)]).2.1).map
      fun p => p.2) = 1 ∧
     listMean (((init_attack_defense [("A", ⟨1, 0, 0, 2, 1, 0⟩)]).2.2).map
      fun p => p.2) = 1 ∧
     listMean (((fast_recompute_attack_defense ["A"] (fun _ => 2)
       (fun _ => 1) (fun _ => 1)).2.1).map fun p => p.2) = 1 ∧
     listMean (((fast_recompute_attack_defense ["A"] (fun _ => 2)
       (fun _ => 1) (fun _ => 1)).2.2).map fun p => p.2) = 1 ∧
     listMean (((recompute_attack_defense ["A"] (fun _ => 2) (fun _ => 1)
       (fun _ => 1) true).2.1).map fun p => p.2) = 1 ∧
     listMean (((recompute_attack_defense ["A"] (fun _ => 2) (fun _ => 1)
       (fun _ => 1) true).2.2).map fun p => p.2) = 1) := by
  have h_td : [("A", (⟨1, 0, 0, 2, 1, 0⟩ : TeamStats))] ≠
      ([] : List (String × TeamStats)) := by simp
  have h_ia : listMean ((init_attack_raw [("A", ⟨1, 0, 0, 2, 1, 0⟩)]).map
      fun p => p.2) ≠ 0 := by
    norm_num [init_attack_raw, init_gfpg, init_base_lambda, listMean]
  have h_id : listMean ((init_defense_raw [("A", ⟨1, 0, 0, 2, 1, 0⟩)]).map
      fun p => p.2) ≠ 0 := by
    norm_num [init_defense_raw, init_gapg, init_gfpg, init_base_lambda, listMean]
  have h_keys : (["A"] : List String) ≠ [] := by simp
  have h_fa : listMean ((fast_attack_raw ["A"] (fun _ => 2)
      (fun _ => 1)).map fun p => p.2) ≠ 0 := by
    norm_num [fast_attack_raw, fast_gfpg, fast_base, listMean]
  have h_fd : listMean ((fast_defense_raw ["A"] (fun _ => 2) (fun _ => 1)
      (fun _ => 1)).map fun p => p.2) ≠ 0 := by
    norm_num [fast_defense_raw, fast_gapg, fast_gfpg, fast_base, listMean]
  have h_ra : listMean ((rec_attack_raw ["A"] (fun _ => 2)
      (fun _ => 1)).map fun p => p.2) ≠ 0 := by
    norm_num [rec_attack_raw, filled_col, rate_opt, defined_rates, rec_base,
      listMean]
  have h_rd : listMean ((rec_defense_raw ["A"] (fun _ => 2) (fun _ => 1)
      (fun _ => 1)).map fun p => p.2) ≠ 0 := by
    norm_num [rec_defense_raw, filled_col, rate_opt, defined_rates, rec_base,
      listMean]
  exact ⟨h_td, h_ia, h_id, h_keys, h_fa, h_fd, h_ra, h_rd,
    normalization_means_one _ _ _ _ _ h_td h_ia h_id h_keys h_fa h_fd h_ra h_rd⟩

/-- C8 -- For a team `t` with zero games played:
`fast_recompute_attack_defense` assigns `t` the per-game rate 0 and folds
it into the cross-team mean used as `base`, while
`recompute_attack_defense` instead replaces `t`'s undefined rate with the
cross-team average of the defined rates before computing `base_lambda`. -/
theorem zero_games_policies (keys : List String) (gf ga games : String → ℝ)
    (t : String) (ht : t ∈ keys) (h0 : games t = 0)
    (hdef : ∃ u ∈ keys, games u ≠ 0) :
    ((t, (0 : ℝ)) ∈ fast_gfpg keys gf games ∧
     (fast_recompute_attack_defense keys gf ga games).1 =
       listMean ((fast_gfpg keys gf games).map fun p => p.2)) ∧
    ((t, listMean (defined_rates keys gf games)) ∈ filled_col keys gf games ∧
     (recompute_attack_defense keys gf ga games true).1 =
       listMean ((filled_col keys gf games).map fun p => p.2)) := by
  refine ⟨⟨?_, ?_⟩, ?_, ?_⟩
  · have hmem := List.mem_map_of_mem
      (fun s => ((s, if games s > 0 then gf s / games s else 0) : String × ℝ)) ht
    simpa [fast_gfpg, h0] using hmem
  · rfl
  · have h1 := List.mem_map_of_mem
      (fun s => (s, rate_opt (gf s) (games s))) ht
    have h2 := List.mem_map_of_mem
      (fun p : String × Option ℝ =>
        (p.1, p.2.getD (listMean (defined_rates keys gf games)))) h1
    simpa [filled_col, rate_opt, h0] using h2
  · rfl

/-- Witness for C8 on a two-team league where team `"B"` has played no
games. -/
theorem zero_games_policies_witness :
    ("B" ∈ ["A", "B"]) ∧
    ((fun s => if s = "A" then (2 : ℝ) else 0) "B" = 0) ∧
    (∃ u ∈ ["A", "B"], (fun s => if s = "A" then (2 : ℝ) else 0) u ≠ 0) ∧
    ((("B", (0 : ℝ)) ∈ fast_gfpg ["A", "B"] (fun _ => 3)
        (fun s => if s = "A" then (2 : ℝ) else 0) ∧
      (fast_recompute_attack_defense ["A", "B"] (fun _ => 3) (fun _ => 1)
        (fun s => if s = "A" then (2 : ℝ) else 0)).1 =
        listMean ((fast_gfpg ["A", "B"] (fun _ => 3)
          (fun s => if s = "A" then (2 : ℝ) else 0)).map fun p => p.2)) ∧
     (("B", listMean (defined_rates ["A", "B"] (fun _ => 3)
          (fun s => if s = "A" then (2 : ℝ) else 0))) ∈
        filled_col ["A", "B"] (fun _ => 3)
          (fun s => if s = "A" then (2 : ℝ) else 0) ∧
      (recompute_attack_defense ["A", "B"] (fun _ => 3) (fun _ => 1)
        (fun s => if s = "A" then (2 : ℝ) else 0) true).1 =
        listMean ((filled_col ["A", "B"] (fun _ => 3)
          (fun s => if s = "A" then (2 : ℝ) else 0)).map fun p => p.2))) := by
  have ht : "B" ∈ ["A", "B"] := by simp
  have hBA : ("B" : String) ≠ "A" := by decide
  have h0 : (fun s => if s = "A" then (2 : ℝ) else 0) "B" = 0 := by
    simp [hBA]
  have hdef : ∃ u ∈ ["A", "B"],
      (fun s => if s = "A" then (2 : ℝ) else 0) u ≠ 0 := by
    exact ⟨"A", by simp, by norm_num⟩
  exact ⟨ht, h0, hdef,
    zero_games_policies ["A", "B"] (fun _ => 3) (fun _ => 1)
      (fun s => if s = "A" then (2 : ℝ) else 0) "B" ht h0 hdef⟩

/-- Counterexample to C9: on a table where the two teams have played
different numbers of matches, `calculate_base_goals` (total goals over
total matches) and `init_attack_defense`'s `base_lambda` (the cross-team
mean of per-game rates) disagree: 1/2 versus 1. -/
theorem base_goals_mismatch :
    calculate_base_goals
      [("A", (⟨1, 0, 0, 2, 0, 0⟩ : TeamStats)),
       ("B", (⟨3, 0, 0, 0, 0, 0⟩ : TeamStats))] ≠
    init_base_lambda
      [("A", (⟨1, 0, 0, 2, 0, 0⟩ : TeamStats)),
       ("B", (⟨3, 0, 0, 0, 0, 0⟩ : TeamStats))] := by
  norm_num [calculate_base_goals, init_base_lambda, init_gfpg, listMean]

/-- C9 (amended) -- `calculate_base_goals` and `init_attack_defense`'s
`base_lambda` agree on every nonempty standings table in which all teams
have played the same nonzero number of matches; with unequal match counts
they are different weightings of the same rates and can disagree. -/
theorem base_goals_agree_on_equal_matches (td : List (String × TeamStats))
    (m : ℝ) (h_td : td ≠ []) (hm : m ≠ 0) (hall : ∀ p ∈ td, p.2.M = m) :
    calculate_base_goals td = init_base_lambda td := by
  have hN : (0 : ℝ) < td.length := by
    exact_mod_cast List.length_pos.mpr h_td
  have hM : (td.map fun p => p.2.M).sum = m * td.length := by
    have h1 : td.map (fun p => p.2.M) = td.map (fun _ => m) :=
      List.map_congr_left (fun p hp => hall p hp)
    rw [h1, listSum_const]
  have hGF : ((init_gfpg td).map fun p => p.2).sum =
      (td.map fun p => p.2.GF).sum / m := by
    have h1 : (init_gfpg td).map (fun p => p.2) =
        td.map fun p => p.2.GF / p.2.M := by
      simp only [init_gfpg, List.map_map]
      rfl
    have h2 : td.map (fun p => p.2.GF / p.2.M) =
        td.map (fun p => p.2.GF / m) :=
      List.map_congr_left (fun p hp => by rw [hall p hp])
    have h3 : td.map (fun p => p.2.GF / m) =
        (td.map fun p => p.2.GF).map (fun v => v / m) := by
      simp only [List.map_map]
      rfl
    rw [h1, h2, h3, listSum_div]
  have hlen : ((init_gfpg td).map fun p => p.2).length = td.length := by
    simp [init_gfpg]
  rw [calculate_base_goals, init_base_lambda, listMean, hM, hGF, hlen]
  field_simp
  ring

/-- Witness for C9 (amended): two teams, both with 2 matches played. -/
theorem base_goals_agree_on_equal_matches_witness :
    ([("A", (⟨2, 0, 0, 3, 1, 0⟩ : TeamStats)),
      ("B", (⟨2, 0, 0, 1, 3, 0⟩ : TeamStats))] ≠
      ([] : List (String × TeamStats))) ∧
    ((2 : ℝ) ≠ 0) ∧
    (∀ p ∈ [("A", (⟨2, 0, 0, 3, 1, 0⟩ : TeamStats)),
            ("B", (⟨2, 0, 0, 1, 3, 0⟩ : TeamStats))], p.2.M = (2 : ℝ)) ∧
    calculate_base_goals
      [("A", (⟨2, 0, 0, 3, 1, 0⟩ : TeamStats)),
       ("B", (⟨2, 0, 0, 1, 3, 0⟩ : TeamStats))] =
    init_base_lambda
      [("A", (⟨2, 0, 0, 3, 1, 0⟩ : TeamStats)),
       ("B", (⟨2, 0, 0, 1, 3, 0⟩ : TeamStats))] := by
  have hall : ∀ p ∈ [("A", (⟨2, 0, 0, 3, 1, 0⟩ : TeamStats)),
      ("B", (⟨2, 0, 0, 1, 3, 0⟩ : TeamStats))], p.2.M = (2 : ℝ) := by
    intro p hp
    simp only [List.mem_cons, List.not_mem_nil, or_false] at hp
    rcases hp with h | h <;> rw [h]
  exact ⟨by simp, by norm_num, hall,
    base_goals_agree_on_equal_matches _ 2 (by simp) (by norm_num) hall⟩

/-- C5 -- With `draw_bias = 0` (and the uniform draw `u ∈ [0,1)` that
`np.random.random()` delivers), `simulate_goals` returns exactly the raw
Poisson pair; with `draw_bias = 1` every unequal pair is replaced by the
forced draw `(g, g)` with `g = max(0, round((goals_a + goals_b)/2))`. -/
theorem simulate_goals_draw_bias (ta tb : String) (bl : ℝ)
    (att dfn : String → ℝ) (ea eb ef : Option ℝ) (sa sb : ℕ) (u : ℝ)
    (h0a : 0 ≤ sim_exp_a ta tb bl att dfn ea eb ef)
    (h0b : 0 ≤ sim_exp_b ta tb bl att dfn ea eb ef)
    (hu0 : 0 ≤ u) (hu1 : u < 1) :
    simulate_goals ta tb bl att dfn ea eb ef 0 sa sb u = .ok (sa, sb) ∧
    (sa ≠ sb →
      simulate_goals ta tb bl att dfn ea eb ef 1 sa sb u =
        .ok ((max 0 (pyRound (((sa : ℝ) + (sb : ℝ)) / 2))).toNat,
             (max 0 (pyRound (((sa : ℝ) + (sb : ℝ)) / 2))).toNat)) := by
  have hpa : np_poisson (sim_exp_a ta tb bl att dfn ea eb ef) sa = .ok sa := by
    rw [np_poisson, if_neg (not_lt.mpr h0a)]
  have hpb : np_poisson (sim_exp_b ta tb bl att dfn ea eb ef) sb = .ok sb := by
    rw [np_poisson, if_neg (not_lt.mpr h0b)]
  constructor
  · rw [simulate_goals, hpa, hpb]
    have hcond : ¬(sa ≠ sb ∧ u < 0) := by
      rintro ⟨-, hlt⟩
      linarith
    dsimp only
    rw [if_neg hcond]
  · intro hne
    rw [simulate_goals, hpa, hpb]
    dsimp only
    rw [if_pos ⟨hne, hu1⟩]

/-- Witness for C5 with raw samples `(2, 1)` and uniform draw `1/2` on a
league-average pairing. -/
theorem simulate_goals_draw_bias_witness :
    0 ≤ sim_exp_a "A" "B" 1 (fun _ => 1) (fun _ => 1) none none none ∧
    0 ≤ sim_exp_b "A" "B" 1 (fun _ => 1) (fun _ => 1) none none none ∧
    (0 : ℝ) ≤ 1/2 ∧ (1/2 : ℝ) < 1 ∧
    (simulate_goals "A" "B" 1 (fun _ => 1) (fun _ => 1) none none none 0
        2 1 (1/2) = .ok (2, 1) ∧
     ((2 : ℕ) ≠ 1 →
      simulate_goals "A" "B" 1 (fun _ => 1) (fun _ => 1) none none none 1
          2 1 (1/2) =
        .ok ((max 0 (pyRound (((2 : ℝ) + (1 : ℝ)) / 2))).toNat,
             (max 0 (pyRound (((2 : ℝ) + (1 : ℝ)) / 2))).toNat))) := by
  have h0a : 0 ≤ sim_exp_a "A" "B" 1 (fun _ => 1) (fun _ => 1)
      none none none := by
    norm_num [sim_exp_a]
  have h0b : 0 ≤ sim_exp_b "A" "B" 1 (fun _ => 1) (fun _ => 1)
      none none none := by
    norm_num [sim_exp_b]
  have h :=
    simulate_goals_draw_bias "A" "B" 1 (fun _ => 1) (fun _ => 1)
      none none none 2 1 (1/2) h0a h0b (by norm_num) (by norm_num)
  have hcast : ((2 : ℕ) : ℝ) = (2 : ℝ) ∧ ((1 : ℕ) : ℝ) = (1 : ℝ) := by
    norm_num
  refine ⟨h0a, h0b, by norm_num, by norm_num, h.1, fun hne => ?_⟩
  have h2 := h.2 hne
  simpa [hcast.1, hcast.2] using h2

/-- C7 -- `simulate_goals` fails fast exactly when a computed
expected-goals value is negative: the `ValueError` raised by numpy's
Poisson sampler propagates before any scoreline is produced, and for
non-negative expected goals a scoreline is always produced (no silent
clamping).  (The float values `inf`/`nan` have no counterpart over the
exact reals, so "non-finite" is vacuous in this embedding.) -/
theorem simulate_goals_fail_fast (ta tb : String) (bl : ℝ)
    (att dfn : String → ℝ) (ea eb ef : Option ℝ) (db : ℝ) (sa sb : ℕ)
    (u : ℝ) :
    ((sim_exp_a ta tb bl att dfn ea eb ef < 0 ∨
      sim_exp_b ta tb bl att dfn ea eb ef < 0) →
      simulate_goals ta tb bl att dfn ea eb ef db sa sb u =
        .error "lam < 0") ∧
    (0 ≤ sim_exp_a ta tb bl att dfn ea eb ef →
     0 ≤ sim_exp_b ta tb bl att dfn ea eb ef →
      ∃ g : ℕ × ℕ,
        simulate_goals ta tb bl att dfn ea eb ef db sa sb u = .ok g) := by
  constructor
  · intro h
    by_cases hA : sim_exp_a ta tb bl att dfn ea eb ef < 0
    · have hpa : np_poisson (sim_exp_a ta tb bl att dfn ea eb ef) sa =
          .error "lam < 0" := by
        rw [np_poisson, if_pos hA]
      rw [simulate_goals, hpa]
    · have hB : sim_exp_b ta tb bl att dfn ea eb ef < 0 := h.resolve_left hA
      have hpa : np_poisson (sim_exp_a ta tb bl att dfn ea eb ef) sa =
          .ok sa := by
        rw [np_poisson, if_neg hA]
      have hpb : np_poisson (sim_exp_b ta tb bl att dfn ea eb ef) sb =
          .error "lam < 0" := by
        rw [np_poisson, if_pos hB]
      rw [simulate_goals, hpa, hpb]
  · intro h0a h0b
    have hpa : np_poisson (sim_exp_a ta tb bl att dfn ea eb ef) sa =
        .ok sa := by
      rw [np_poisson, if_neg (not_lt.mpr h0a)]
    have hpb : np_poisson (sim_exp_b ta tb bl att dfn ea eb ef) sb =
        .ok sb := by
      rw [np_poisson, if_neg (not_lt.mpr h0b)]
    rw [simulate_goals, hpa, hpb]
    dsimp only
    split_ifs
    · exact ⟨_, rfl⟩
    · exact ⟨_, rfl⟩

/-- Witness for C7 with a negative attack multiplier for team `"A"`. -/
theorem simulate_goals_fail_fast_witness :
    (sim_exp_a "A" "B" 1 (fun _ => -1) (fun _ => 1) none none none < 0 ∨
     sim_exp_b "A" "B" 1 (fun _ => -1) (fun _ => 1) none none none < 0) ∧
    simulate_goals "A" "B" 1 (fun _ => -1) (fun _ => 1) none none none
      (1/10) 2 1 (1/2) = .error "lam < 0" := by
  have hneg : sim_exp_a "A" "B" 1 (fun _ => -1) (fun _ => 1)
      none none none < 0 := by
    norm_num [sim_exp_a]
  exact ⟨Or.inl hneg,
    (simulate_goals_fail_fast "A" "B" 1 (fun _ => -1) (fun _ => 1)
      none none none (1/10) 2 1 (1/2)).1 (Or.inl hneg)⟩

end Superliga
